import Mathlib

/-!
Shallow embedding of the Y-cable MUX register protocol layer
(sonic_y_cable/y_cable.py): command encoders that write fixed one-byte
payloads, and status decoders that interpret one-byte register reads.
The transport accessor (platform_chassis / get_sfp / read_eeprom /
write_eeprom) is modelled as an abstract structure; each operation
additionally returns the list of accessor calls it performed, and its
result is wrapped in Except so that a propagating exception is an
explicit, provably absent outcome.
-/

namespace YCable

/-- Register offsets, constants from the top of the module. -/
def Y_CABLE_IDENTFIER_LOWER_PAGE : Nat := 0

def Y_CABLE_IDENTFIER_UPPER_PAGE : Nat := 128

def Y_CABLE_DETERMINE_CABLE_READ_SIDE : Nat := 640

def Y_CABLE_CHECK_LINK_ACTIVE : Nat := 641

def Y_CABLE_SWITCH_MUX_DIRECTION : Nat := 642

def Y_CABLE_MUX_DIRECTION : Nat := 644

def Y_CABLE_ACTIVE_TOR_INDICATOR : Nat := 645

def Y_CABLE_MANUAL_SWITCH_COUNT : Nat := 669

/-- A Python object returned by read_eeprom, as far as the decoders
distinguish them: a mutable bytearray with byte contents, an immutable
bytes object with byte contents, or any object of another type.
Only an exact bytearray passes the isinstance check in the code. -/
inductive PyObj where
  | bytearray (data : List Nat)
  | bytes (data : List Nat)
  | otherObj
deriving DecidableEq, Repr

/-- A Python exception that could propagate out of a decoder. The only
internal operation that can raise in the decode path is struct.unpack. -/
inductive PyExc where
  | structError
deriving DecidableEq, Repr

/-- A Python value returned by a link-active function: the code returns
either a bool (success) or the int -1 (failure), which are distinct
Python values. -/
inductive PyRet where
  | pyBool (b : Bool)
  | pyInt (n : Int)
deriving DecidableEq, Repr

/-- Python truthiness of a returned value: a bool is its own truth
value, an int is truthy iff nonzero. -/
def py_truthy : PyRet → Bool
  | PyRet.pyBool b => b
  | PyRet.pyInt n => n ≠ 0

/-- One call made to the transport accessor. -/
inductive Call where
  | readCall (offset length : Nat)
  | writeCall (offset length : Nat) (payload : List Nat)
deriving DecidableEq, Repr

/-- The transport accessor: platform_chassis.get_sfp(port).read_eeprom /
write_eeprom collapsed into two functions keyed by port. read_eeprom
may return any Python object or None (modelled as Option PyObj);
write_eeprom returns a success boolean. -/
structure Chassis where
  read_eeprom : Nat → Nat → Nat → Option PyObj
  write_eeprom : Nat → Nat → Nat → List Nat → Bool

/-- Semantics of struct.unpack of one big-endian unsigned byte: succeeds
exactly on a buffer of length 1, yielding its single byte; on any other
length struct.unpack raises struct.error. -/
def struct_unpack_B (data : List Nat) : Option Nat :=
  if data.length = 1 then some (data.headD 0) else none

/-- A read result the shared validation block rejects: absent (None),
not a bytearray, or a bytearray whose length is not 1. -/
def is_malformed : Option PyObj → Bool
  | none => true
  | some (PyObj.bytearray data) => data.length ≠ 1
  | some (PyObj.bytes _) => true
  | some PyObj.otherObj => true

/-- toggle_mux_to_torA: writes the one-byte payload 0x02 at offset 642;
returns the boolean result of the write, or False when the chassis is
unavailable. -/
def toggle_mux_to_torA (platform_chassis : Option Chassis) (physical_port : Nat) :
    Except PyExc Bool × List Call :=
  let buffer : List Nat := [2]
  let curr_offset := Y_CABLE_SWITCH_MUX_DIRECTION
  match platform_chassis with
  | some chassis =>
      let result := chassis.write_eeprom physical_port curr_offset 1 buffer
      (Except.ok result, [Call.writeCall curr_offset 1 buffer])
  | none => (Except.ok false, [])

/-- toggle_mux_to_torB: writes the one-byte payload 0x03 at offset 642;
returns the boolean result of the write, or False when the chassis is
unavailable. -/
def toggle_mux_to_torB (platform_chassis : Option Chassis) (physical_port : Nat) :
    Except PyExc Bool × List Call :=
  let buffer : List Nat := [3]
  let curr_offset := Y_CABLE_SWITCH_MUX_DIRECTION
  match platform_chassis with
  | some chassis =>
      let result := chassis.write_eeprom physical_port curr_offset 1 buffer
      (Except.ok result, [Call.writeCall curr_offset 1 buffer])
  | none => (Except.ok false, [])

/-- check_read_side: reads 1 byte at offset 640; after validation,
checks bit 2 (TOR A, 1), then bit 1 (TOR B, 2), then bit 0 (NIC, 0),
else -1. All failure paths return -1. -/
def check_read_side (platform_chassis : Option Chassis) (physical_port : Nat) :
    Except PyExc Int × List Call :=
  let curr_offset := Y_CABLE_DETERMINE_CABLE_READ_SIDE
  match platform_chassis with
  | none => (Except.ok (-1), [])
  | some chassis =>
      let result := chassis.read_eeprom physical_port curr_offset 1
      let trace := [Call.readCall curr_offset 1]
      match result with
      | none => (Except.ok (-1), trace)
      | some (PyObj.bytearray data) =>
          if data.length ≠ 1 then (Except.ok (-1), trace)
          else
            match struct_unpack_B data with
            | none => (Except.error PyExc.structError, trace)
            | some regval =>
                if (regval >>> 2) &&& 0x01 ≠ 0 then (Except.ok 1, trace)
                else if (regval >>> 1) &&& 0x01 ≠ 0 then (Except.ok 2, trace)
                else if regval &&& 0x01 ≠ 0 then (Except.ok 0, trace)
                else (Except.ok (-1), trace)
      | some _ => (Except.ok (-1), trace)

/-- check_mux_direction: reads 1 byte at offset 644; after validation,
bit 0 set gives 1 (TOR A), value 0 gives 2 (TOR B), any other value
gives -1. All failure paths return -1. -/
def check_mux_direction (platform_chassis : Option Chassis) (physical_port : Nat) :
    Except PyExc Int × List Call :=
  let curr_offset := Y_CABLE_MUX_DIRECTION
  match platform_chassis with
  | none => (Except.ok (-1), [])
  | some chassis =>
      let result := chassis.read_eeprom physical_port curr_offset 1
      let trace := [Call.readCall curr_offset 1]
      match result with
      | none => (Except.ok (-1), trace)
      | some (PyObj.bytearray data) =>
          if data.length ≠ 1 then (Except.ok (-1), trace)
          else
            match struct_unpack_B data with
            | none => (Except.error PyExc.structError, trace)
            | some regval =>
                if regval &&& 0x01 ≠ 0 then (Except.ok 1, trace)
                else if regval = 0 then (Except.ok 2, trace)
                else (Except.ok (-1), trace)
      | some _ => (Except.ok (-1), trace)

/-- check_active_linked_tor_side: reads 1 byte at offset 645; after
validation, bit 1 set gives 2 (TOR B), else bit 0 set gives 1 (TOR A),
else value 0 gives 0 (nothing routing), else -1. All failure paths
return -1. -/
def check_active_linked_tor_side (platform_chassis : Option Chassis) (physical_port : Nat) :
    Except PyExc Int × List Call :=
  let curr_offset := Y_CABLE_ACTIVE_TOR_INDICATOR
  match platform_chassis with
  | none => (Except.ok (-1), [])
  | some chassis =>
      let result := chassis.read_eeprom physical_port curr_offset 1
      let trace := [Call.readCall curr_offset 1]
      match result with
      | none => (Except.ok (-1), trace)
      | some (PyObj.bytearray data) =>
          if data.length ≠ 1 then (Except.ok (-1), trace)
          else
            match struct_unpack_B data with
            | none => (Except.error PyExc.structError, trace)
            | some regval =>
                if (regval >>> 1) &&& 0x01 ≠ 0 then (Except.ok 2, trace)
                else if regval &&& 0x01 ≠ 0 then (Except.ok 1, trace)
                else if regval = 0 then (Except.ok 0, trace)
                else (Except.ok (-1), trace)
      | some _ => (Except.ok (-1), trace)

/-- check_if_link_is_active_for_NIC: reads 1 byte at offset 641; after
validation, returns True iff bit 0 is set. All failure paths return the
int -1 rather than a bool. -/
def check_if_link_is_active_for_NIC (platform_chassis : Option Chassis) (physical_port : Nat) :
    Except PyExc PyRet × List Call :=
  let curr_offset := Y_CABLE_CHECK_LINK_ACTIVE
  match platform_chassis with
  | none => (Except.ok (PyRet.pyInt (-1)), [])
  | some chassis =>
      let result := chassis.read_eeprom physical_port curr_offset 1
      let trace := [Call.readCall curr_offset 1]
      match result with
      | none => (Except.ok (PyRet.pyInt (-1)), trace)
      | some (PyObj.bytearray data) =>
          if data.length ≠ 1 then (Except.ok (PyRet.pyInt (-1)), trace)
          else
            match struct_unpack_B data with
            | none => (Except.error PyExc.structError, trace)
            | some regval =>
                if regval &&& 0x01 ≠ 0 then (Except.ok (PyRet.pyBool true), trace)
                else (Except.ok (PyRet.pyBool false), trace)
      | some _ => (Except.ok (PyRet.pyInt (-1)), trace)

/-- check_if_link_is_active_for_torA: reads 1 byte at offset 641; after
validation, returns True iff bit 2 is set. All failure paths return the
int -1 rather than a bool. -/
def check_if_link_is_active_for_torA (platform_chassis : Option Chassis) (physical_port : Nat) :
    Except PyExc PyRet × List Call :=
  let curr_offset := Y_CABLE_CHECK_LINK_ACTIVE
  match platform_chassis with
  | none => (Except.ok (PyRet.pyInt (-1)), [])
  | some chassis =>
      let result := chassis.read_eeprom physical_port curr_offset 1
      let trace := [Call.readCall curr_offset 1]
      match result with
      | none => (Except.ok (PyRet.pyInt (-1)), trace)
      | some (PyObj.bytearray data) =>
          if data.length ≠ 1 then (Except.ok (PyRet.pyInt (-1)), trace)
          else
            match struct_unpack_B data with
            | none => (Except.error PyExc.structError, trace)
            | some regval =>
                if (regval >>> 2) &&& 0x01 ≠ 0 then (Except.ok (PyRet.pyBool true), trace)
                else (Except.ok (PyRet.pyBool false), trace)
      | some _ => (Except.ok (PyRet.pyInt (-1)), trace)

/-- check_if_link_is_active_for_torB: reads 1 byte at offset 641; after
validation, returns True iff bit 1 is set. All failure paths return the
int -1 rather than a bool. -/
def check_if_link_is_active_for_torB (platform_chassis : Option Chassis) (physical_port : Nat) :
    Except PyExc PyRet × List Call :=
  let curr_offset := Y_CABLE_CHECK_LINK_ACTIVE
  match platform_chassis with
  | none => (Except.ok (PyRet.pyInt (-1)), [])
  | some chassis =>
      let result := chassis.read_eeprom physical_port curr_offset 1
      let trace := [Call.readCall curr_offset 1]
      match result with
      | none => (Except.ok (PyRet.pyInt (-1)), trace)
      | some (PyObj.bytearray data) =>
          if data.length ≠ 1 then (Except.ok (PyRet.pyInt (-1)), trace)
          else
            match struct_unpack_B data with
            | none => (Except.error PyExc.structError, trace)
            | some regval =>
                if (regval >>> 1) &&& 0x01 ≠ 0 then (Except.ok (PyRet.pyBool true), trace)
                else (Except.ok (PyRet.pyBool false), trace)
      | some _ => (Except.ok (PyRet.pyInt (-1)), trace)

/-- A chassis whose every eeprom read returns a fixed result and whose
every write succeeds; used to build concrete witnesses. -/
def mkReadChassis (r : Option PyObj) : Chassis :=
  { read_eeprom := fun _ _ _ => r
    write_eeprom := fun _ _ _ _ => true }

/-- The bit tests the decoders perform, stated via Nat.testBit. -/
theorem shift_and_one_ne_zero_iff (b k : Nat) :
    ((b >>> k) &&& 1 ≠ 0) ↔ b.testBit k = true := by
  rw [Nat.testBit_to_div_mod, Nat.shiftRight_eq_div_pow, Nat.and_one_is_mod]
  constructor
  · intro h
    have := Nat.mod_lt (b / 2 ^ k) (show 0 < 2 from by decide)
    simp only [decide_eq_true_eq]
    omega
  · intro h
    simp only [decide_eq_true_eq] at h
    omega

/-- Claim C1: for every one-byte register value b successfully read at
offset 644, check_mux_direction returns 1 (TOR A) when bit 0 of b is
set, 2 (TOR B) when b equals 0, and -1 for every other non-zero value
of b. -/
theorem mux_direction_decode_spec (c : Chassis) (port b : Nat) (hb : b < 256)
    (hread : c.read_eeprom port Y_CABLE_MUX_DIRECTION 1 = some (PyObj.bytearray [b])) :
    (check_mux_direction (some c) port).1 =
      Except.ok (if b.testBit 0 then 1 else if b = 0 then 2 else -1) := by
  simp only [check_mux_direction, hread, struct_unpack_B]
  by_cases hbit : b % 2 = 1
  · simp [Nat.and_one_is_mod, hbit, Nat.testBit_zero]
  · by_cases hz : b = 0 <;> simp [Nat.and_one_is_mod, hbit, hz, Nat.testBit_zero]

/-- Claim C1 witness: the byte 0x01 decodes to 1, 0x00 to 2, 0x02
to -1. -/
theorem mux_direction_decode_spec_witness :
    (check_mux_direction (some (mkReadChassis (some (PyObj.bytearray [1])))) 0).1 = Except.ok 1 ∧
    (check_mux_direction (some (mkReadChassis (some (PyObj.bytearray [0])))) 0).1 = Except.ok 2 ∧
    (check_mux_direction (some (mkReadChassis (some (PyObj.bytearray [2])))) 0).1 = Except.ok (-1) := by
  refine ⟨?_, ?_, ?_⟩
  · have h := mux_direction_decode_spec (mkReadChassis (some (PyObj.bytearray [1]))) 0 1
      (by decide) rfl
    simpa using h
  · have h := mux_direction_decode_spec (mkReadChassis (some (PyObj.bytearray [0]))) 0 0
      (by decide) rfl
    simpa using h
  · have h := mux_direction_decode_spec (mkReadChassis (some (PyObj.bytearray [2]))) 0 2
      (by decide) rfl
    simpa using h

/-- Claim C2: for every one-byte register value b successfully read at
offset 640, check_read_side checks bit 2 before bit 1 before bit 0 and
returns 1 (TOR A) when bit 2 is set, else 2 (TOR B) when bit 1 is set,
else 0 (NIC) when bit 0 is set, else -1; the highest-priority set bit
decides. -/
theorem read_side_decode_spec (c : Chassis) (port b : Nat) (hb : b < 256)
    (hread : c.read_eeprom port Y_CABLE_DETERMINE_CABLE_READ_SIDE 1 =
      some (PyObj.bytearray [b])) :
    (check_read_side (some c) port).1 =
      Except.ok (if b.testBit 2 then 1
        else if b.testBit 1 then 2
        else if b.testBit 0 then 0
        else -1) := by
  simp only [check_read_side, hread, struct_unpack_B]
  by_cases h2 : b / 4 % 2 = 1 <;> by_cases h1 : b / 2 % 2 = 1 <;> by_cases h0 : b % 2 = 1 <;>
    simp [Nat.and_one_is_mod, Nat.shiftRight_eq_div_pow, Nat.testBit_to_div_mod, h2, h1, h0]

/-- Claim C2 witness: bytes 0x04, 0x02, 0x01, 0x00 and 0x07 decode to
1, 2, 0, -1 and 1 respectively. -/
theorem read_side_decode_spec_witness :
    (check_read_side (some (mkReadChassis (some (PyObj.bytearray [4])))) 0).1 = Except.ok 1 ∧
    (check_read_side (some (mkReadChassis (some (PyObj.bytearray [2])))) 0).1 = Except.ok 2 ∧
    (check_read_side (some (mkReadChassis (some (PyObj.bytearray [1])))) 0).1 = Except.ok 0 ∧
    (check_read_side (some (mkReadChassis (some (PyObj.bytearray [0])))) 0).1 = Except.ok (-1) ∧
    (check_read_side (some (mkReadChassis (some (PyObj.bytearray [7])))) 0).1 = Except.ok 1 := by
  refine ⟨?_, ?_, ?_, ?_, ?_⟩
  · have h := read_side_decode_spec (mkReadChassis (some (PyObj.bytearray [4]))) 0 4
      (by decide) rfl
    simpa using h
  · have h := read_side_decode_spec (mkReadChassis (some (PyObj.bytearray [2]))) 0 2
      (by decide) rfl
    simpa using h
  · have h := read_side_decode_spec (mkReadChassis (some (PyObj.bytearray [1]))) 0 1
      (by decide) rfl
    simpa using h
  · have h := read_side_decode_spec (mkReadChassis (some (PyObj.bytearray [0]))) 0 0
      (by decide) rfl
    simpa using h
  · have h := read_side_decode_spec (mkReadChassis (some (PyObj.bytearray [7]))) 0 7
      (by decide) rfl
    simpa using h

/-- Claim C3: for every one-byte register value b successfully read at
offset 645, check_active_linked_tor_side returns 2 (TOR B) when bit 1
of b is set, else 1 (TOR A) when bit 0 is set, else 0 when b equals 0,
and -1 otherwise. -/
theorem active_linked_decode_spec (c : Chassis) (port b : Nat) (hb : b < 256)
    (hread : c.read_eeprom port Y_CABLE_ACTIVE_TOR_INDICATOR 1 =
      some (PyObj.bytearray [b])) :
    (check_active_linked_tor_side (some c) port).1 =
      Except.ok (if b.testBit 1 then 2
        else if b.testBit 0 then 1
        else if b = 0 then 0
        else -1) := by
  simp only [check_active_linked_tor_side, hread, struct_unpack_B]
  by_cases h1 : b / 2 % 2 = 1 <;> by_cases h0 : b % 2 = 1 <;> by_cases hz : b = 0 <;>
    simp [Nat.and_one_is_mod, Nat.shiftRight_eq_div_pow, Nat.testBit_to_div_mod, h1, h0, hz]

/-- Claim C3 witness: bytes 0x02, 0x01, 0x00, 0x04 decode to 2, 1, 0,
-1 respectively. -/
theorem active_linked_decode_spec_witness :
    (check_active_linked_tor_side (some (mkReadChassis (some (PyObj.bytearray [2])))) 0).1 =
      Except.ok 2 ∧
    (check_active_linked_tor_side (some (mkReadChassis (some (PyObj.bytearray [1])))) 0).1 =
      Except.ok 1 ∧
    (check_active_linked_tor_side (some (mkReadChassis (some (PyObj.bytearray [0])))) 0).1 =
      Except.ok 0 ∧
    (check_active_linked_tor_side (some (mkReadChassis (some (PyObj.bytearray [4])))) 0).1 =
      Except.ok (-1) := by
  refine ⟨?_, ?_, ?_, ?_⟩
  · have h := active_linked_decode_spec (mkReadChassis (some (PyObj.bytearray [2]))) 0 2
      (by decide) rfl
    simpa using h
  · have h := active_linked_decode_spec (mkReadChassis (some (PyObj.bytearray [1]))) 0 1
      (by decide) rfl
    simpa using h
  · have h := active_linked_decode_spec (mkReadChassis (some (PyObj.bytearray [0]))) 0 0
      (by decide) rfl
    simpa using h
  · have h := active_linked_decode_spec (mkReadChassis (some (PyObj.bytearray [4]))) 0 4
      (by decide) rfl
    simpa using h

/-- Claim C4: for every one-byte register value b successfully read at
offset 641, each link-active decoder tests one fixed bit of b and
returns a boolean: the NIC view is True iff bit 0 is set, the TOR A
view iff bit 2 is set, the TOR B view iff bit 1 is set. -/
theorem link_active_decode_spec (c : Chassis) (port b : Nat) (hb : b < 256)
    (hread : c.read_eeprom port Y_CABLE_CHECK_LINK_ACTIVE 1 =
      some (PyObj.bytearray [b])) :
    (check_if_link_is_active_for_NIC (some c) port).1 =
      Except.ok (PyRet.pyBool (b.testBit 0)) ∧
    (check_if_link_is_active_for_torA (some c) port).1 =
      Except.ok (PyRet.pyBool (b.testBit 2)) ∧
    (check_if_link_is_active_for_torB (some c) port).1 =
      Except.ok (PyRet.pyBool (b.testBit 1)) := by
  refine ⟨?_, ?_, ?_⟩
  · simp only [check_if_link_is_active_for_NIC, hread, struct_unpack_B]
    by_cases h0 : b % 2 = 1 <;>
      simp [Nat.and_one_is_mod, Nat.shiftRight_eq_div_pow, Nat.testBit_to_div_mod, h0]
  · simp only [check_if_link_is_active_for_torA, hread, struct_unpack_B]
    by_cases h2 : b / 4 % 2 = 1 <;>
      simp [Nat.and_one_is_mod, Nat.shiftRight_eq_div_pow, Nat.testBit_to_div_mod, h2]
  · simp only [check_if_link_is_active_for_torB, hread, struct_unpack_B]
    by_cases h1 : b / 2 % 2 = 1 <;>
      simp [Nat.and_one_is_mod, Nat.shiftRight_eq_div_pow, Nat.testBit_to_div_mod, h1]

/-- Claim C4 witness: for the byte 0x04, the NIC view is False, the
TOR A view is True and the TOR B view is False. -/
theorem link_active_decode_spec_witness :
    (check_if_link_is_active_for_NIC (some (mkReadChassis (some (PyObj.bytearray [4])))) 0).1 =
      Except.ok (PyRet.pyBool false) ∧
    (check_if_link_is_active_for_torA (some (mkReadChassis (some (PyObj.bytearray [4])))) 0).1 =
      Except.ok (PyRet.pyBool true) ∧
    (check_if_link_is_active_for_torB (some (mkReadChassis (some (PyObj.bytearray [4])))) 0).1 =
      Except.ok (PyRet.pyBool false) := by
  have h := link_active_decode_spec (mkReadChassis (some (PyObj.bytearray [4]))) 0 4
    (by decide) rfl
  refine ⟨?_, ?_, ?_⟩
  · have h1 := h.1
    simpa using h1
  · have h2 := h.2.1
    simpa using h2
  · have h3 := h.2.2
    simpa using h3

/-- Claim C5: the switch-command encoders are pure and total: for every
chassis and every port, toggle_mux_to_torA issues exactly one write of
the one-byte payload 0x02 at offset 642 and toggle_mux_to_torB exactly
one write of the one-byte payload 0x03 at offset 642, so repeated
invocations of the same command always encode the identical
(offset, payload) pair. -/
theorem toggle_encoding_spec (c : Chassis) (port : Nat) :
    (toggle_mux_to_torA (some c) port).2 = [Call.writeCall 642 1 [2]] ∧
    (toggle_mux_to_torB (some c) port).2 = [Call.writeCall 642 1 [3]] :=
  ⟨rfl, rfl⟩

/-- check_read_side returns -1 on a malformed read result. -/
theorem check_read_side_malformed (c : Chassis) (port : Nat)
    (hmal : is_malformed (c.read_eeprom port Y_CABLE_DETERMINE_CABLE_READ_SIDE 1) = true) :
    (check_read_side (some c) port).1 = Except.ok (-1) := by
  rcases h : c.read_eeprom port Y_CABLE_DETERMINE_CABLE_READ_SIDE 1 with _ | obj
  · simp [check_read_side, h]
  · cases obj with
    | bytearray data =>
        rw [h] at hmal
        simp only [is_malformed, decide_eq_true_eq] at hmal
        simp [check_read_side, h, hmal]
    | bytes data => simp [check_read_side, h]
    | otherObj => simp [check_read_side, h]

/-- check_mux_direction returns -1 on a malformed read result. -/
theorem check_mux_direction_malformed (c : Chassis) (port : Nat)
    (hmal : is_malformed (c.read_eeprom port Y_CABLE_MUX_DIRECTION 1) = true) :
    (check_mux_direction (some c) port).1 = Except.ok (-1) := by
  rcases h : c.read_eeprom port Y_CABLE_MUX_DIRECTION 1 with _ | obj
  · simp [check_mux_direction, h]
  · cases obj with
    | bytearray data =>
        rw [h] at hmal
        simp only [is_malformed, decide_eq_true_eq] at hmal
        simp [check_mux_direction, h, hmal]
    | bytes data => simp [check_mux_direction, h]
    | otherObj => simp [check_mux_direction, h]

/-- check_active_linked_tor_side returns -1 on a malformed read
result. -/
theorem check_active_linked_malformed (c : Chassis) (port : Nat)
    (hmal : is_malformed (c.read_eeprom port Y_CABLE_ACTIVE_TOR_INDICATOR 1) = true) :
    (check_active_linked_tor_side (some c) port).1 = Except.ok (-1) := by
  rcases h : c.read_eeprom port Y_CABLE_ACTIVE_TOR_INDICATOR 1 with _ | obj
  · simp [check_active_linked_tor_side, h]
  · cases obj with
    | bytearray data =>
        rw [h] at hmal
        simp only [is_malformed, decide_eq_true_eq] at hmal
        simp [check_active_linked_tor_side, h, hmal]
    | bytes data => simp [check_active_linked_tor_side, h]
    | otherObj => simp [check_active_linked_tor_side, h]

/-- check_if_link_is_active_for_NIC returns the int -1 on a malformed
read result. -/
theorem link_NIC_malformed (c : Chassis) (port : Nat)
    (hmal : is_malformed (c.read_eeprom port Y_CABLE_CHECK_LINK_ACTIVE 1) = true) :
    (check_if_link_is_active_for_NIC (some c) port).1 = Except.ok (PyRet.pyInt (-1)) := by
  rcases h : c.read_eeprom port Y_CABLE_CHECK_LINK_ACTIVE 1 with _ | obj
  · simp [check_if_link_is_active_for_NIC, h]
  · cases obj with
    | bytearray data =>
        rw [h] at hmal
        simp only [is_malformed, decide_eq_true_eq] at hmal
        simp [check_if_link_is_active_for_NIC, h, hmal]
    | bytes data => simp [check_if_link_is_active_for_NIC, h]
    | otherObj => simp [check_if_link_is_active_for_NIC, h]

/-- check_if_link_is_active_for_torA returns the int -1 on a malformed
read result. -/
theorem link_torA_malformed (c : Chassis) (port : Nat)
    (hmal : is_malformed (c.read_eeprom port Y_CABLE_CHECK_LINK_ACTIVE 1) = true) :
    (check_if_link_is_active_for_torA (some c) port).1 = Except.ok (PyRet.pyInt (-1)) := by
  rcases h : c.read_eeprom port Y_CABLE_CHECK_LINK_ACTIVE 1 with _ | obj
  · simp [check_if_link_is_active_for_torA, h]
  · cases obj with
    | bytearray data =>
        rw [h] at hmal
        simp only [is_malformed, decide_eq_true_eq] at hmal
        simp [check_if_link_is_active_for_torA, h, hmal]
    | bytes data => simp [check_if_link_is_active_for_torA, h]
    | otherObj => simp [check_if_link_is_active_for_torA, h]

/-- check_if_link_is_active_for_torB returns the int -1 on a malformed
read result. -/
theorem link_torB_malformed (c : Chassis) (port : Nat)
    (hmal : is_malformed (c.read_eeprom port Y_CABLE_CHECK_LINK_ACTIVE 1) = true) :
    (check_if_link_is_active_for_torB (some c) port).1 = Except.ok (PyRet.pyInt (-1)) := by
  rcases h : c.read_eeprom port Y_CABLE_CHECK_LINK_ACTIVE 1 with _ | obj
  · simp [check_if_link_is_active_for_torB, h]
  · cases obj with
    | bytearray data =>
        rw [h] at hmal
        simp only [is_malformed, decide_eq_true_eq] at hmal
        simp [check_if_link_is_active_for_torB, h, hmal]
    | bytes data => simp [check_if_link_is_active_for_torB, h]
    | otherObj => simp [check_if_link_is_active_for_torB, h]

/-- Claim C6: for every decoder, a read result that is absent, or is a
byte sequence of length different from 1, or is not a bytearray, makes
the decoder return the error sentinel -1, never a normal status. -/
theorem decoder_malformed_spec (c : Chassis) (port : Nat)
    (hmal : ∀ off, is_malformed (c.read_eeprom port off 1) = true) :
    (check_read_side (some c) port).1 = Except.ok (-1) ∧
    (check_mux_direction (some c) port).1 = Except.ok (-1) ∧
    (check_active_linked_tor_side (some c) port).1 = Except.ok (-1) ∧
    (check_if_link_is_active_for_NIC (some c) port).1 = Except.ok (PyRet.pyInt (-1)) ∧
    (check_if_link_is_active_for_torA (some c) port).1 = Except.ok (PyRet.pyInt (-1)) ∧
    (check_if_link_is_active_for_torB (some c) port).1 = Except.ok (PyRet.pyInt (-1)) :=
  ⟨check_read_side_malformed c port (hmal _),
   check_mux_direction_malformed c port (hmal _),
   check_active_linked_malformed c port (hmal _),
   link_NIC_malformed c port (hmal _),
   link_torA_malformed c port (hmal _),
   link_torB_malformed c port (hmal _)⟩

/-- Claim C6 witness: an absent read (None) makes all six decoders
return -1. -/
theorem decoder_malformed_spec_witness :
    (check_read_side (some (mkReadChassis none)) 0).1 = Except.ok (-1) ∧
    (check_mux_direction (some (mkReadChassis none)) 0).1 = Except.ok (-1) ∧
    (check_active_linked_tor_side (some (mkReadChassis none)) 0).1 = Except.ok (-1) ∧
    (check_if_link_is_active_for_NIC (some (mkReadChassis none)) 0).1 =
      Except.ok (PyRet.pyInt (-1)) ∧
    (check_if_link_is_active_for_torA (some (mkReadChassis none)) 0).1 =
      Except.ok (PyRet.pyInt (-1)) ∧
    (check_if_link_is_active_for_torB (some (mkReadChassis none)) 0).1 =
      Except.ok (PyRet.pyInt (-1)) :=
  decoder_malformed_spec (mkReadChassis none) 0 (fun _ => rfl)

/-- Claim C7: when the chassis is unavailable (None), every operation
returns its error sentinel with an empty accessor-call trace: the two
toggles return False without writing, and every decoder returns -1
without reading. -/
theorem unavailable_chassis_spec (port : Nat) :
    check_read_side none port = (Except.ok (-1), []) ∧
    check_mux_direction none port = (Except.ok (-1), []) ∧
    check_active_linked_tor_side none port = (Except.ok (-1), []) ∧
    check_if_link_is_active_for_NIC none port = (Except.ok (PyRet.pyInt (-1)), []) ∧
    check_if_link_is_active_for_torA none port = (Except.ok (PyRet.pyInt (-1)), []) ∧
    check_if_link_is_active_for_torB none port = (Except.ok (PyRet.pyInt (-1)), []) ∧
    toggle_mux_to_torA none port = (Except.ok false, []) ∧
    toggle_mux_to_torB none port = (Except.ok false, []) :=
  ⟨rfl, rfl, rfl, rfl, rfl, rfl, rfl, rfl⟩

/-- Whether an operation result is a normal return rather than a
propagating exception. -/
def returns_normally {α : Type} : Except PyExc α → Bool
  | Except.ok _ => true
  | Except.error _ => false

/-- check_read_side never raises, for any chassis and read result. -/
theorem no_exc_read_side (pc : Option Chassis) (port : Nat) :
    returns_normally (check_read_side pc port).1 = true := by
  cases pc with
  | none => rfl
  | some c =>
      rcases h : c.read_eeprom port Y_CABLE_DETERMINE_CABLE_READ_SIDE 1 with _ | obj
      · simp [check_read_side, h, returns_normally]
      · cases obj with
        | bytearray data =>
            by_cases hlen : data.length = 1
            · simp [check_read_side, h, struct_unpack_B, hlen, returns_normally,
                apply_ite returns_normally, apply_ite (Prod.fst (β := List Call))]
              split
              all_goals rename_i heq
              all_goals repeat' (split at heq)
              all_goals simp_all
            · simp [check_read_side, h, hlen, returns_normally]
        | bytes data => simp [check_read_side, h, returns_normally]
        | otherObj => simp [check_read_side, h, returns_normally]

/-- check_mux_direction never raises. -/
theorem no_exc_mux_direction (pc : Option Chassis) (port : Nat) :
    returns_normally (check_mux_direction pc port).1 = true := by
  cases pc with
  | none => rfl
  | some c =>
      rcases h : c.read_eeprom port Y_CABLE_MUX_DIRECTION 1 with _ | obj
      · simp [check_mux_direction, h, returns_normally]
      · cases obj with
        | bytearray data =>
            by_cases hlen : data.length = 1
            · simp [check_mux_direction, h, struct_unpack_B, hlen, returns_normally,
                apply_ite returns_normally, apply_ite (Prod.fst (β := List Call))]
              split
              all_goals rename_i heq
              all_goals repeat' (split at heq)
              all_goals simp_all
            · simp [check_mux_direction, h, hlen, returns_normally]
        | bytes data => simp [check_mux_direction, h, returns_normally]
        | otherObj => simp [check_mux_direction, h, returns_normally]

/-- check_active_linked_tor_side never raises. -/
theorem no_exc_active_linked (pc : Option Chassis) (port : Nat) :
    returns_normally (check_active_linked_tor_side pc port).1 = true := by
  cases pc with
  | none => rfl
  | some c =>
      rcases h : c.read_eeprom port Y_CABLE_ACTIVE_TOR_INDICATOR 1 with _ | obj
      · simp [check_active_linked_tor_side, h, returns_normally]
      · cases obj with
        | bytearray data =>
            by_cases hlen : data.length = 1
            · simp [check_active_linked_tor_side, h, struct_unpack_B, hlen, returns_normally,
                apply_ite returns_normally, apply_ite (Prod.fst (β := List Call))]
              split
              all_goals rename_i heq
              all_goals repeat' (split at heq)
              all_goals simp_all
            · simp [check_active_linked_tor_side, h, hlen, returns_normally]
        | bytes data => simp [check_active_linked_tor_side, h, returns_normally]
        | otherObj => simp [check_active_linked_tor_side, h, returns_normally]

/-- check_if_link_is_active_for_NIC never raises. -/
theorem no_exc_link_NIC (pc : Option Chassis) (port : Nat) :
    returns_normally (check_if_link_is_active_for_NIC pc port).1 = true := by
  cases pc with
  | none => rfl
  | some c =>
      rcases h : c.read_eeprom port Y_CABLE_CHECK_LINK_ACTIVE 1 with _ | obj
      · simp [check_if_link_is_active_for_NIC, h, returns_normally]
      · cases obj with
        | bytearray data =>
            by_cases hlen : data.length = 1
            · simp [check_if_link_is_active_for_NIC, h, struct_unpack_B, hlen,
                returns_normally, apply_ite returns_normally,
                apply_ite (Prod.fst (β := List Call))]
              split
              all_goals rename_i heq
              all_goals repeat' (split at heq)
              all_goals simp_all
            · simp [check_if_link_is_active_for_NIC, h, hlen, returns_normally]
        | bytes data => simp [check_if_link_is_active_for_NIC, h, returns_normally]
        | otherObj => simp [check_if_link_is_active_for_NIC, h, returns_normally]

/-- check_if_link_is_active_for_torA never raises. -/
theorem no_exc_link_torA (pc : Option Chassis) (port : Nat) :
    returns_normally (check_if_link_is_active_for_torA pc port).1 = true := by
  cases pc with
  | none => rfl
  | some c =>
      rcases h : c.read_eeprom port Y_CABLE_CHECK_LINK_ACTIVE 1 with _ | obj
      · simp [check_if_link_is_active_for_torA, h, returns_normally]
      · cases obj with
        | bytearray data =>
            by_cases hlen : data.length = 1
            · simp [check_if_link_is_active_for_torA, h, struct_unpack_B, hlen,
                returns_normally, apply_ite returns_normally,
                apply_ite (Prod.fst (β := List Call))]
              split
              all_goals rename_i heq
              all_goals repeat' (split at heq)
              all_goals simp_all
            · simp [check_if_link_is_active_for_torA, h, hlen, returns_normally]
        | bytes data => simp [check_if_link_is_active_for_torA, h, returns_normally]
        | otherObj => simp [check_if_link_is_active_for_torA, h, returns_normally]

/-- check_if_link_is_active_for_torB never raises. -/
theorem no_exc_link_torB (pc : Option Chassis) (port : Nat) :
    returns_normally (check_if_link_is_active_for_torB pc port).1 = true := by
  cases pc with
  | none => rfl
  | some c =>
      rcases h : c.read_eeprom port Y_CABLE_CHECK_LINK_ACTIVE 1 with _ | obj
      · simp [check_if_link_is_active_for_torB, h, returns_normally]
      · cases obj with
        | bytearray data =>
            by_cases hlen : data.length = 1
            · simp [check_if_link_is_active_for_torB, h, struct_unpack_B, hlen,
                returns_normally, apply_ite returns_normally,
                apply_ite (Prod.fst (β := List Call))]
              split
              all_goals rename_i heq
              all_goals repeat' (split at heq)
              all_goals simp_all
            · simp [check_if_link_is_active_for_torB, h, hlen, returns_normally]
        | bytes data => simp [check_if_link_is_active_for_torB, h, returns_normally]
        | otherObj => simp [check_if_link_is_active_for_torB, h, returns_normally]

/-- Claim C8: no operation raises an exception across its boundary: for
every chassis state (available or not), every port, and every accessor
read result (absent, wrong type, wrong length, or any byte value),
every decoder and both encoders return a normal value, never a
propagating exception. -/
theorem no_exception_spec (pc : Option Chassis) (port : Nat) :
    returns_normally (check_read_side pc port).1 = true ∧
    returns_normally (check_mux_direction pc port).1 = true ∧
    returns_normally (check_active_linked_tor_side pc port).1 = true ∧
    returns_normally (check_if_link_is_active_for_NIC pc port).1 = true ∧
    returns_normally (check_if_link_is_active_for_torA pc port).1 = true ∧
    returns_normally (check_if_link_is_active_for_torB pc port).1 = true ∧
    returns_normally (toggle_mux_to_torA pc port).1 = true ∧
    returns_normally (toggle_mux_to_torB pc port).1 = true := by
  refine ⟨no_exc_read_side pc port, no_exc_mux_direction pc port,
    no_exc_active_linked pc port, no_exc_link_NIC pc port,
    no_exc_link_torA pc port, no_exc_link_torB pc port, ?_, ?_⟩
  · cases pc <;> rfl
  · cases pc <;> rfl

/-- Claim C9: a read result that is an immutable bytes object rather
than a bytearray is rejected by every decoder as malformed and yields
the sentinel -1, even when it has length exactly 1 and carries a
recognizable bit pattern. -/
theorem bytes_rejected_spec (c : Chassis) (port b : Nat) (hb : b < 256)
    (hread : ∀ off, c.read_eeprom port off 1 = some (PyObj.bytes [b])) :
    (check_read_side (some c) port).1 = Except.ok (-1) ∧
    (check_mux_direction (some c) port).1 = Except.ok (-1) ∧
    (check_active_linked_tor_side (some c) port).1 = Except.ok (-1) ∧
    (check_if_link_is_active_for_NIC (some c) port).1 = Except.ok (PyRet.pyInt (-1)) ∧
    (check_if_link_is_active_for_torA (some c) port).1 = Except.ok (PyRet.pyInt (-1)) ∧
    (check_if_link_is_active_for_torB (some c) port).1 = Except.ok (PyRet.pyInt (-1)) := by
  refine ⟨?_, ?_, ?_, ?_, ?_, ?_⟩ <;>
    simp [check_read_side, check_mux_direction, check_active_linked_tor_side,
      check_if_link_is_active_for_NIC, check_if_link_is_active_for_torA,
      check_if_link_is_active_for_torB, hread]

/-- Claim C9 witness: a bytes object holding the single byte 0x04 (a
pattern every decoder recognizes when it arrives as a bytearray) is
rejected by all six decoders. -/
theorem bytes_rejected_spec_witness :
    (check_read_side (some (mkReadChassis (some (PyObj.bytes [4])))) 0).1 = Except.ok (-1) ∧
    (check_mux_direction (some (mkReadChassis (some (PyObj.bytes [4])))) 0).1 = Except.ok (-1) ∧
    (check_active_linked_tor_side (some (mkReadChassis (some (PyObj.bytes [4])))) 0).1 =
      Except.ok (-1) ∧
    (check_if_link_is_active_for_NIC (some (mkReadChassis (some (PyObj.bytes [4])))) 0).1 =
      Except.ok (PyRet.pyInt (-1)) ∧
    (check_if_link_is_active_for_torA (some (mkReadChassis (some (PyObj.bytes [4])))) 0).1 =
      Except.ok (PyRet.pyInt (-1)) ∧
    (check_if_link_is_active_for_torB (some (mkReadChassis (some (PyObj.bytes [4])))) 0).1 =
      Except.ok (PyRet.pyInt (-1)) :=
  bytes_rejected_spec (mkReadChassis (some (PyObj.bytes [4]))) 0 4 (by decide) (fun _ => rfl)

/-- Claim C10: on every failure path (unavailable chassis, absent read,
malformed read) the three link-active functions return the Python int
-1, a value distinct from the bool False and truthy in a boolean
context. -/
theorem link_failure_sentinel_spec (c : Chassis) (port : Nat)
    (hmal : is_malformed (c.read_eeprom port Y_CABLE_CHECK_LINK_ACTIVE 1) = true) :
    (check_if_link_is_active_for_NIC none port).1 = Except.ok (PyRet.pyInt (-1)) ∧
    (check_if_link_is_active_for_torA none port).1 = Except.ok (PyRet.pyInt (-1)) ∧
    (check_if_link_is_active_for_torB none port).1 = Except.ok (PyRet.pyInt (-1)) ∧
    (check_if_link_is_active_for_NIC (some c) port).1 = Except.ok (PyRet.pyInt (-1)) ∧
    (check_if_link_is_active_for_torA (some c) port).1 = Except.ok (PyRet.pyInt (-1)) ∧
    (check_if_link_is_active_for_torB (some c) port).1 = Except.ok (PyRet.pyInt (-1)) ∧
    PyRet.pyInt (-1) ≠ PyRet.pyBool false ∧
    py_truthy (PyRet.pyInt (-1)) = true :=
  ⟨rfl, rfl, rfl, link_NIC_malformed c port hmal, link_torA_malformed c port hmal,
   link_torB_malformed c port hmal, by decide, by decide⟩

/-- Claim C10 witness: with an absent read, all three link-active
functions return the int -1, which differs from False and is truthy. -/
theorem link_failure_sentinel_spec_witness :
    (check_if_link_is_active_for_NIC none 0).1 = Except.ok (PyRet.pyInt (-1)) ∧
    (check_if_link_is_active_for_torA none 0).1 = Except.ok (PyRet.pyInt (-1)) ∧
    (check_if_link_is_active_for_torB none 0).1 = Except.ok (PyRet.pyInt (-1)) ∧
    (check_if_link_is_active_for_NIC (some (mkReadChassis none)) 0).1 =
      Except.ok (PyRet.pyInt (-1)) ∧
    (check_if_link_is_active_for_torA (some (mkReadChassis none)) 0).1 =
      Except.ok (PyRet.pyInt (-1)) ∧
    (check_if_link_is_active_for_torB (some (mkReadChassis none)) 0).1 =
      Except.ok (PyRet.pyInt (-1)) ∧
    PyRet.pyInt (-1) ≠ PyRet.pyBool false ∧
    py_truthy (PyRet.pyInt (-1)) = true :=
  link_failure_sentinel_spec (mkReadChassis none) 0 rfl

end YCable
